import Mathlib

/-!
Shallow embedding of the core of the compiler front-end: the parser-combinator
engine (src/parse/parser.rs), the solver module interface
(compiler/solve/src/module.rs), and the code emitter (src/gen/mod.rs).

Conventions of the embedding:
* Rust panics (out-of-bounds slicing, `unwrap`, explicit `panic!` calls) are
  modelled as an explicit `panic` outcome rather than left out.
* Machine integers are `Nat` with their bounds written out: the `u16` column
  limit is 65535, the `u32` line limit is 4294967295.
* The remaining input is modelled at character granularity as a `List Char`.
* The two unbounded accumulation loops (`zero_or_more`, `one_or_more`) are
  modelled with an explicit fuel parameter; `none` means the fuel ran out,
  i.e. the Rust loop has not produced a result after that many iterations.
-/

namespace Parse

/-- Modelled from the spec: `attempting` is "a small tag naming the syntactic
production being attempted (used only for error attribution)".  The Rust enum
`parse::ast::Attempting` is not under src/; the engine only ever names the
`Keyword` tag, so a handful of representative tags suffice. -/
inductive Attempting where
  | Keyword
  | Expression
  | Identifier
  | Module
deriving DecidableEq, Repr

/-- Modelled from the spec: a `Region` is "(start_line, start_col, end_line,
end_col)"; the Rust `region` module is not under src/. -/
structure Region where
  start_line : Nat
  start_col : Nat
  end_line : Nat
  end_col : Nat
deriving DecidableEq, Repr

/-- Struct which represents a position in a source file (parser.rs `State`). -/
structure State where
  input : List Char
  line : Nat
  column : Nat
  indent_col : Nat
  is_indenting : Bool
  attempting : Attempting
deriving DecidableEq, Repr

inductive FailReason where
  | Unexpected (ch : Char) (region : Region)
  | ConditionFailed
  | LineTooLong (line : Nat)
  | TooManyLines
  | Eof (region : Region)
deriving DecidableEq, Repr

structure Fail where
  attempting : Attempting
  reason : FailReason
deriving DecidableEq, Repr

def u16MAX : Nat := 65535

def u32MAX : Nat := 4294967295

/-- Outcome of a primitive state transition: Rust
`Result<State, (Fail, State)>`, with panics modelled explicitly. -/
inductive StateResult where
  | ok (s : State)
  | fail (f : Fail) (s : State)
  | panic
deriving DecidableEq, Repr

/-- parser.rs `line_too_long`: set column to MAX; the Rust code computes
`state.input.get(0..state.input.len()).unwrap()`, which keeps the input
as-is. -/
def line_too_long (attempting : Attempting) (state : State) : Fail × State :=
  let reason := FailReason.LineTooLong state.line
  let fail : Fail := { reason := reason, attempting := attempting }
  ( fail,
    { input := state.input, line := state.line, indent_col := state.indent_col,
      is_indenting := state.is_indenting, column := u16MAX,
      attempting := attempting } )

/-- parser.rs `State::newline`: increments the line, then resets column,
indent_col and is_indenting, advancing the input by 1.  `line.checked_add(1)`
fails exactly on `u32` overflow; the slice `&self.input[1..]` panics on empty
input. -/
def State.newline (s : State) : StateResult :=
  if s.line + 1 ≤ u32MAX then
    match s.input with
    | [] => .panic
    | _ :: rest =>
      .ok { input := rest, line := s.line + 1, column := 0, indent_col := 1,
            is_indenting := true, attempting := s.attempting }
  else
    .fail { reason := .TooManyLines, attempting := s.attempting } s

/-- parser.rs `State::advance_without_indenting`: adds `quantity` to the
column, failing via `line_too_long` when the sum exceeds the `u16` maximum;
the slice `&self.input[quantity..]` panics when `quantity` exceeds the
remaining input length. -/
def State.advance_without_indenting (s : State) (quantity : Nat) : StateResult :=
  if s.column + quantity ≤ u16MAX then
    if quantity ≤ s.input.length then
      .ok { input := s.input.drop quantity, line := s.line,
            column := s.column + quantity, indent_col := s.indent_col,
            is_indenting := false, attempting := s.attempting }
    else .panic
  else
    let p := line_too_long s.attempting s
    .fail p.1 p.2

/-- parser.rs `State::advance_spaces`: like `advance_without_indenting` but
preserves `is_indenting` and, while indenting, adds the spaces to
`indent_col` as well (a `u16` addition, hence the mod 2^16). -/
def State.advance_spaces (s : State) (spaces : Nat) : StateResult :=
  if s.column + spaces ≤ u16MAX then
    if spaces ≤ s.input.length then
      let is_indenting := s.is_indenting
      let indent_col :=
        if is_indenting then (s.indent_col + spaces) % 65536 else s.indent_col
      .ok { input := s.input.drop spaces, line := s.line,
            column := s.column + spaces, indent_col := indent_col,
            is_indenting := is_indenting, attempting := s.attempting }
    else .panic
  else
    let p := line_too_long s.attempting s
    .fail p.1 p.2

/-- parser.rs `checked_unexpected`: check for line overflow (crucially with a
strict `<`, so a column already at the MAX sentinel bails out with
`LineTooLong`), then build the region for the problem constructor. -/
def checked_unexpected (chars_consumed : Nat) (state : State)
    (problem_from_region : Region → Fail) : Fail × State :=
  if state.column + chars_consumed < u16MAX then
    let region : Region :=
      { start_col := state.column, end_col := state.column + chars_consumed,
        start_line := state.line, end_line := state.line }
    (problem_from_region region, state)
  else
    line_too_long state.attempting state

def unexpected_eof (chars_consumed : Nat) (attempting : Attempting)
    (state : State) : Fail × State :=
  checked_unexpected chars_consumed state
    (fun region => { reason := .Eof region, attempting := attempting })

def unexpected (ch : Char) (chars_consumed : Nat) (state : State)
    (attempting : Attempting) : Fail × State :=
  checked_unexpected chars_consumed state
    (fun region => { reason := .Unexpected ch region, attempting := attempting })

/-- Rust `ParseResult<T> = Result<(T, State), (Fail, State)>`, with panics
modelled explicitly. -/
inductive POut (α : Type) where
  | ok (a : α) (s : State)
  | fail (f : Fail) (s : State)
  | panic
deriving DecidableEq, Repr

/-- A `Parser<Output>` is anything exposing `parse(arena, state)`; the arena
only hosts result vectors, which the embedding represents as `List`. -/
abbrev Parser (α : Type) : Type := State → POut α

/-- parser.rs `val`: succeeds returning the value without consuming. -/
def val {α : Type} (value : α) : Parser α := fun state => .ok value state

/-- parser.rs `char`: a single char. -/
def char (expected : Char) : Parser Unit := fun state =>
  match state.input with
  | actual :: _ =>
    if expected = actual then
      match state.advance_without_indenting 1 with
      | .ok s => .ok () s
      | .fail f s => .fail f s
      | .panic => .panic
    else
      let p := unexpected actual 0 state .Keyword
      .fail p.1 p.2
  | [] =>
    let p := unexpected_eof 0 .Keyword state
    .fail p.1 p.2

/-- parser.rs `string`: a literal (newline-free) string; `input.get(0..len)`
yields the prefix only when `len` bytes remain. -/
def string (str : List Char) : Parser Unit := fun state =>
  let len := str.length
  if len ≤ state.input.length ∧ state.input.take len = str then
    match state.advance_without_indenting len with
    | .ok s => .ok () s
    | .fail f s => .fail f s
    | .panic => .panic
  else
    let p := unexpected_eof 0 .Keyword state
    .fail p.1 p.2

inductive Either (α β : Type) where
  | First (a : α)
  | Second (b : β)
deriving DecidableEq, Repr

/-- parser.rs `either`: try `p1`; on failure try `p2` from the state returned
by `p1`'s failure; restore the original `attempting` on the final failure. -/
def either {α β : Type} (p1 : Parser α) (p2 : Parser β) :
    Parser (Either α β) := fun state =>
  let original_attempting := state.attempting
  match p1 state with
  | .ok output s => .ok (.First output) s
  | .fail _ s =>
    match p2 s with
    | .ok output s1 => .ok (.Second output) s1
    | .fail f s1 => .fail { f with attempting := original_attempting } s1
    | .panic => .panic
  | .panic => .panic

def one_of2 {α : Type} (p1 p2 : Parser α) : Parser α := fun state =>
  let original_attempting := state.attempting
  match p1 state with
  | .ok output s => .ok output s
  | .fail _ s =>
    match p2 s with
    | .ok output s1 => .ok output s1
    | .fail f s1 => .fail { f with attempting := original_attempting } s1
    | .panic => .panic
  | .panic => .panic

def one_of3 {α : Type} (p1 p2 p3 : Parser α) : Parser α := fun state =>
  let original_attempting := state.attempting
  match p1 state with
  | .ok output s => .ok output s
  | .fail _ s =>
    match p2 s with
    | .ok output s1 => .ok output s1
    | .fail _ s1 =>
      match p3 s1 with
      | .ok output s2 => .ok output s2
      | .fail f s2 => .fail { f with attempting := original_attempting } s2
      | .panic => .panic
    | .panic => .panic
  | .panic => .panic

def one_of4 {α : Type} (p1 p2 p3 p4 : Parser α) : Parser α := fun state =>
  let original_attempting := state.attempting
  match p1 state with
  | .ok output s => .ok output s
  | .fail _ s =>
    match p2 s with
    | .ok output s1 => .ok output s1
    | .fail _ s1 =>
      match p3 s1 with
      | .ok output s2 => .ok output s2
      | .fail _ s2 =>
        match p4 s2 with
        | .ok output s3 => .ok output s3
        | .fail f s3 => .fail { f with attempting := original_attempting } s3
        | .panic => .panic
      | .panic => .panic
    | .panic => .panic
  | .panic => .panic

def one_of5 {α : Type} (p1 p2 p3 p4 p5 : Parser α) : Parser α := fun state =>
  let original_attempting := state.attempting
  match p1 state with
  | .ok output s => .ok output s
  | .fail _ s =>
    match p2 s with
    | .ok output s1 => .ok output s1
    | .fail _ s1 =>
      match p3 s1 with
      | .ok output s2 => .ok output s2
      | .fail _ s2 =>
        match p4 s2 with
        | .ok output s3 => .ok output s3
        | .fail _ s3 =>
          match p5 s3 with
          | .ok output s4 => .ok output s4
          | .fail f s4 => .fail { f with attempting := original_attempting } s4
          | .panic => .panic
        | .panic => .panic
      | .panic => .panic
    | .panic => .panic
  | .panic => .panic

def one_of6 {α : Type} (p1 p2 p3 p4 p5 p6 : Parser α) : Parser α := fun state =>
  let original_attempting := state.attempting
  match p1 state with
  | .ok output s => .ok output s
  | .fail _ s =>
    match p2 s with
    | .ok output s1 => .ok output s1
    | .fail _ s1 =>
      match p3 s1 with
      | .ok output s2 => .ok output s2
      | .fail _ s2 =>
        match p4 s2 with
        | .ok output s3 => .ok output s3
        | .fail _ s3 =>
          match p5 s3 with
          | .ok output s4 => .ok output s4
          | .fail _ s4 =>
            match p6 s4 with
            | .ok output s5 => .ok output s5
            | .fail f s5 =>
              .fail { f with attempting := original_attempting } s5
            | .panic => .panic
          | .panic => .panic
        | .panic => .panic
      | .panic => .panic
    | .panic => .panic
  | .panic => .panic

def one_of7 {α : Type} (p1 p2 p3 p4 p5 p6 p7 : Parser α) : Parser α :=
  fun state =>
  let original_attempting := state.attempting
  match p1 state with
  | .ok output s => .ok output s
  | .fail _ s =>
    match p2 s with
    | .ok output s1 => .ok output s1
    | .fail _ s1 =>
      match p3 s1 with
      | .ok output s2 => .ok output s2
      | .fail _ s2 =>
        match p4 s2 with
        | .ok output s3 => .ok output s3
        | .fail _ s3 =>
          match p5 s3 with
          | .ok output s4 => .ok output s4
          | .fail _ s4 =>
            match p6 s4 with
            | .ok output s5 => .ok output s5
            | .fail _ s5 =>
              match p7 s5 with
              | .ok output s6 => .ok output s6
              | .fail f s6 =>
                .fail { f with attempting := original_attempting } s6
              | .panic => .panic
            | .panic => .panic
          | .panic => .panic
        | .panic => .panic
      | .panic => .panic
    | .panic => .panic
  | .panic => .panic

def one_of8 {α : Type} (p1 p2 p3 p4 p5 p6 p7 p8 : Parser α) : Parser α :=
  fun state =>
  let original_attempting := state.attempting
  match p1 state with
  | .ok output s => .ok output s
  | .fail _ s =>
    match p2 s with
    | .ok output s1 => .ok output s1
    | .fail _ s1 =>
      match p3 s1 with
      | .ok output s2 => .ok output s2
      | .fail _ s2 =>
        match p4 s2 with
        | .ok output s3 => .ok output s3
        | .fail _ s3 =>
          match p5 s3 with
          | .ok output s4 => .ok output s4
          | .fail _ s4 =>
            match p6 s4 with
            | .ok output s5 => .ok output s5
            | .fail _ s5 =>
              match p7 s5 with
              | .ok output s6 => .ok output s6
              | .fail _ s6 =>
                match p8 s6 with
                | .ok output s7 => .ok output s7
                | .fail f s7 =>
                  .fail { f with attempting := original_attempting } s7
                | .panic => .panic
              | .panic => .panic
            | .panic => .panic
          | .panic => .panic
        | .panic => .panic
      | .panic => .panic
    | .panic => .panic
  | .panic => .panic

/-- The accumulation loop of parser.rs `zero_or_more`: push each success and
continue from its state; on the first failure return the accumulated buffer
with the state carried in the `Err`.  `none` models fuel exhaustion. -/
def zero_or_more_loop {α : Type} (parser : Parser α) :
    Nat → List α → State → Option (POut (List α))
  | 0, _, _ => none
  | fuel + 1, buf, state =>
    match parser state with
    | .ok next_output next_state =>
      zero_or_more_loop parser fuel (buf ++ [next_output]) next_state
    | .fail _ old_state => some (.ok buf old_state)
    | .panic => some .panic

/-- parser.rs `zero_or_more`. -/
def zero_or_more {α : Type} (parser : Parser α) (fuel : Nat) :
    State → Option (POut (List α)) := fun state =>
  match parser state with
  | .ok first_output next_state =>
    zero_or_more_loop parser fuel [first_output] next_state
  | .fail _ new_state => some (.ok [] new_state)
  | .panic => some .panic

/-- The accumulation loop of parser.rs `one_or_more` (the Rust source
duplicates the `zero_or_more` loop body verbatim). -/
def one_or_more_loop {α : Type} (parser : Parser α) :
    Nat → List α → State → Option (POut (List α))
  | 0, _, _ => none
  | fuel + 1, buf, state =>
    match parser state with
    | .ok next_output next_state =>
      one_or_more_loop parser fuel (buf ++ [next_output]) next_state
    | .fail _ old_state => some (.ok buf old_state)
    | .panic => some .panic

/-- parser.rs `one_or_more`: like `zero_or_more` but a failing first attempt
produces `unexpected_eof` at the state returned by that attempt. -/
def one_or_more {α : Type} (parser : Parser α) (fuel : Nat) :
    State → Option (POut (List α)) := fun state =>
  match parser state with
  | .ok first_output next_state =>
    one_or_more_loop parser fuel [first_output] next_state
  | .fail _ new_state =>
    let p := unexpected_eof 0 new_state.attempting new_state
    some (.fail p.1 p.2)
  | .panic => some .panic

/-- parser.rs `satisfies`: run the parser on a clone of the state; keep a
success only if the predicate accepts; otherwise (rejection or any inner
failure) fail with `ConditionFailed` at the original state. -/
def satisfies {α : Type} (parser : Parser α) (predicate : α → Bool) :
    Parser α := fun state =>
  match parser state with
  | .ok output next_state =>
    if predicate output then .ok output next_state
    else .fail { reason := .ConditionFailed, attempting := state.attempting } state
  | .fail _ _ =>
    .fail { reason := .ConditionFailed, attempting := state.attempting } state
  | .panic => .panic

end Parse

namespace Types

abbrev Variable : Type := Nat

abbrev Symbol : Type := String

/-- Modelled from the spec: `FlatType` variants "include
`Apply { module, name, args }`, function types, records, tag unions"; the Rust
type lives in roc_types::subs / crate::subs, which is not under src/.  Only
`Apply` is inspected by the embedded code. -/
inductive FlatType where
  | Apply (module_name : String) (name : String) (args : List Variable)
  | Func (args : List Variable) (ret : Variable)
  | EmptyRecord
deriving DecidableEq, Repr

/-- Modelled from the spec: the `Content` sum stored for each type variable. -/
inductive Content where
  | FlexVar (name : Option String)
  | RigidVar (name : String)
  | Structure (flat_type : FlatType)
  | Alias (symbol : Symbol) (args : List Variable) (real_var : Variable)
  | Error
deriving DecidableEq, Repr

/-- Modelled from the spec: `Subs` is "a mapping from type-variable handles to
a Content sum"; the union-find table itself is not under src/, so the mapping
is embedded directly as a function. -/
def Subs : Type := Variable → Content

/-- Modelled from the spec: `get_without_compacting(v)` returns the current
content without path-compressing. -/
def Subs.get_without_compacting (subs : Subs) (v : Variable) : Content := subs v

/-- Modelled from the spec: `subs.rigid_var(var, name)` marks `var` as a rigid
named `name` (roc_types::subs, not under src/). -/
def Subs.rigid_var (subs : Subs) (var : Variable) (name : String) : Subs :=
  fun w => if w = var then .RigidVar name else subs w

end Types

namespace Solve

open Types

/-- Modelled from the spec: `RigidVariables` is "two sets — named rigids
(variable, user-visible name) and wildcard rigids" (roc_can::module, not under
src/).  The sets are embedded as lists; set-ness (no duplicate named variable,
named and wildcard disjoint) appears as hypotheses where needed. -/
structure RigidVariables where
  named : List (Variable × String)
  wildcards : List Variable

/-- Modelled from the spec: one binding step of the solver core.  The solver
"walks the constraint tree, binding type variables"; a rigid variable "is not
unifiable with any other", so a binding never overwrites a `RigidVar` entry (a
mismatch is reported as a `TypeError`, which this model does not track). -/
def solve_bind (subs : Subs) (var : Variable) (content : Content) : Subs :=
  match subs var with
  | .RigidVar _ => subs
  | _ => fun w => if w = var then content else subs w

/-- Modelled from the spec: `solve::run` (compiler/solve/src/solve.rs, not
under src/) is specified at contract level; its observable effect on the
substitution is a sequence of variable bindings applied in order. -/
def solve_run (binds : List (Variable × Content)) (subs : Subs) : Subs :=
  binds.foldl (fun acc p => solve_bind acc p.1 p.2) subs

/-- module.rs `run_solve`: register every named rigid, then every wildcard as
a rigid named `*`, then run the solver.  The environment, problem buffer and
alias table are not tracked; the result is the solved substitution. -/
def run_solve (binds : List (Variable × Content))
    (rigid_variables : RigidVariables) (subs : Subs) : Subs :=
  let subs1 := rigid_variables.named.foldl (fun s p => s.rigid_var p.1 p.2) subs
  let subs2 :=
    rigid_variables.wildcards.foldl (fun s v => s.rigid_var v "*") subs1
  solve_run binds subs2

end Solve

namespace Gen

open Types

/-- crate::types constants (not under src/); the spec names them in the
type-to-basic-type mapping. -/
def MOD_NUM : String := "Num"

def TYPE_NUM : String := "Num"

def MOD_FLOAT : String := "Float"

def TYPE_FLOATINGPOINT : String := "FloatingPoint"

def MOD_INT : String := "Int"

def TYPE_INTEGER : String := "Integer"

/-- The two basic types the emitter produces: `context.f64_type()` and
`context.i64_type()`. -/
inductive BasicTypeEnum where
  | FloatType
  | IntType
deriving DecidableEq, Repr

/-- gen/mod.rs `num_to_basic_type`: dispatch on the content nested inside
`Num.Num`.  `none` models the two `panic!` branches; `Except.error` models the
`Err(String)` value. -/
def num_to_basic_type (content : Content) :
    Option (Except String BasicTypeEnum) :=
  match content with
  | .Structure flat_type =>
    match flat_type with
    | .Apply module_name name args =>
      if module_name = MOD_FLOAT ∧ name = TYPE_FLOATINGPOINT ∧ args = [] then
        some (.ok .FloatType)
      else if module_name = MOD_INT ∧ name = TYPE_INTEGER ∧ args = [] then
        some (.ok .IntType)
      else
        some (.error "Unrecognized numeric type")
    | _ => none
  | _ => none

/-- gen/mod.rs `content_to_basic_type`: a `Num.Num` application resolves its
first argument (`args.iter().next().unwrap()` panics when there is none) and
dispatches via `num_to_basic_type`; any other structure panics with a TODO;
non-structure content yields an `Err` value. -/
def content_to_basic_type (content : Content) (subs : Subs) :
    Option (Except String BasicTypeEnum) :=
  match content with
  | .Structure flat_type =>
    match flat_type with
    | .Apply module_name name args =>
      if module_name = MOD_NUM ∧ name = TYPE_NUM then
        match args with
        | [] => none
        | arg :: _ => num_to_basic_type (subs.get_without_compacting arg)
      else none
    | _ => none
  | _ => some (.error "Cannot convert content to BasicTypeEnum")

/-- The subset of `BasicValueEnum` the embedded emitter produces; a value
built by `build_load` is opaque and identified by the loaded pointer. -/
inductive BasicValueEnum where
  | IntValue (n : Int)
  | FloatValue (bits : Nat)
  | LoadValue (ptr : Nat)
deriving DecidableEq, Repr

/-- The instructions the embedded emitter can append to a basic block. -/
inductive Instr where
  | Alloca (ptr : Nat) (basic_type : BasicTypeEnum) (name : String)
  | Store (ptr : Nat) (value : BasicValueEnum)
  | Load (ptr : Nat) (name : String)
deriving DecidableEq, Repr

/-- The observable state of the backend builder and parent function: the
function's basic blocks (head is the entry block), the index of the block
holding the main builder's insert point, and a supply of fresh pointer ids
for `build_alloca`. -/
structure BuilderState where
  blocks : List (List Instr)
  cur : Nat
  next_ptr : Nat
deriving DecidableEq, Repr

def build_store (b : BuilderState) (ptr : Nat) (value : BasicValueEnum) :
    BuilderState :=
  { b with blocks := b.blocks.set b.cur ((b.blocks.getD b.cur []) ++ [.Store ptr value]) }

def build_load (b : BuilderState) (ptr : Nat) (name : String) :
    BasicValueEnum × BuilderState :=
  (.LoadValue ptr,
   { b with blocks := b.blocks.set b.cur ((b.blocks.getD b.cur []) ++ [.Load ptr name]) })

/-- gen/mod.rs `create_entry_block_alloca`: a fresh builder positions itself
before the entry block's first instruction when one exists, else at the end
of the entry block, and builds the alloca there.
`parent.get_first_basic_block().unwrap()` panics when there is no block. -/
def create_entry_block_alloca (b : BuilderState) (basic_type : BasicTypeEnum)
    (name : String) : Option (Nat × BuilderState) :=
  match b.blocks with
  | [] => none
  | entry :: rest =>
    let ptr := b.next_ptr
    let entry1 :=
      match entry with
      | _ :: _ => Instr.Alloca ptr basic_type name :: entry
      | [] => entry ++ [Instr.Alloca ptr basic_type name]
    some (ptr, { blocks := entry1 :: rest, cur := b.cur, next_ptr := b.next_ptr + 1 })

/-- The canonical patterns the emitter inspects (crate::can::pattern). -/
inductive Pattern where
  | Identifier (symbol : Symbol)
  | IntLiteral (n : Int)
  | FloatLiteral (bits : Nat)
  | Underscore
deriving DecidableEq, Repr

/-- The fragment of the canonical `Expr` tree that the embedded emitter
handles; `Float` payloads are modelled opaquely by their bit pattern. -/
inductive Expr where
  | Int (var : Variable) (num : Int)
  | Float (var : Variable) (num : Nat)
  | Str (s : String)
  | Var (resolved_symbol : Symbol)
  | LetNonRec (loc_pattern : Pattern) (loc_expr : Expr) (loc_ret : Expr)
deriving DecidableEq, Repr

/-- gen/mod.rs `Scope`: a persistent map from symbol to (content, stack-slot
pointer); the persistent `ImMap` is embedded as an association list whose
insert is a cons. -/
abbrev Scope : Type := List (Symbol × (Content × Nat))

def Scope.get (scope : Scope) (symbol : Symbol) : Option (Content × Nat) :=
  (scope.find? (fun p => p.1 == symbol)).map Prod.snd

/-- gen/mod.rs `content_from_expr`; the catch-all `panic!` branches are
`none`. -/
def content_from_expr (scope : Scope) (subs : Subs) (expr : Expr) :
    Option Content :=
  match expr with
  | .Int var _ => some (subs.get_without_compacting var)
  | .Float var _ => some (subs.get_without_compacting var)
  | .Str _ => some (.Structure (.Apply "Str" "Str" []))
  | .Var resolved_symbol =>
    match Scope.get scope resolved_symbol with
    | some (content, _) => some content
    | none => none
  | _ => none

/-- gen/mod.rs `compile_expr` restricted to the embedded `Expr` fragment; the
`When` form and every `panic!` branch are `none`. -/
def compile_expr (subs : Subs) (scope : Scope) (expr : Expr)
    (b : BuilderState) : Option (BasicValueEnum × BuilderState) :=
  match expr with
  | .Int _ num => some (.IntValue num, b)
  | .Float _ num => some (.FloatValue num, b)
  | .Var resolved_symbol =>
    match Scope.get scope resolved_symbol with
    | some (_, ptr) =>
      let p := build_load b ptr resolved_symbol
      some (p.1, p.2)
    | none => none
  | .LetNonRec loc_pattern loc_expr loc_ret =>
    match loc_pattern with
    | .Identifier symbol =>
      match content_from_expr scope subs loc_expr with
      | some content =>
        match compile_expr subs scope loc_expr b with
        | some (v, b1) =>
          match content_to_basic_type content subs with
          | some (.ok expr_bt) =>
            match create_entry_block_alloca b1 expr_bt symbol with
            | some (alloca, b2) =>
              let b3 := build_store b2 alloca v
              compile_expr subs ((symbol, (content, alloca)) :: scope) loc_ret b3
            | none => none
          | _ => none
        | none => none
      | none => none
    | _ => none
  | .Str _ => none

end Gen

/-! ## Helper lemmas -/

/-- At a poisoned state (column already at the sentinel), `line_too_long`
returns the state itself: every field it writes already has that value. -/
theorem line_too_long_at_max (s : Parse.State) (h : s.column = Parse.u16MAX) :
    Parse.line_too_long s.attempting s
      = (⟨s.attempting, .LineTooLong s.line⟩, s) := by
  obtain ⟨inp, ln, col, ic, ii, att⟩ := s
  simp only [Parse.line_too_long]
  simp only at h
  subst h
  rfl

/-- The `zero_or_more` accumulation loop can only produce `ok` (or run out of
fuel, or propagate a panic): the `Err` arm of the loop returns `Ok`. -/
theorem zero_or_more_loop_no_fail {α : Type} (p : Parse.Parser α) :
    ∀ fuel (buf : List α) s f st,
      Parse.zero_or_more_loop p fuel buf s ≠ some (.fail f st) := by
  intro fuel
  induction fuel with
  | zero => intro buf s f st; simp [Parse.zero_or_more_loop]
  | succ n ih =>
    intro buf s f st
    simp only [Parse.zero_or_more_loop]
    cases hp : p s with
    | ok a s1 => exact ih (buf ++ [a]) s1 f st
    | fail f1 s1 => simp
    | panic => simp

/-! ## Claims -/

/-- C1 counterexample: the claim quantifies over every combinator, but `val`
succeeds on any state, including a poisoned one.  Here `char 'a'` produces a
`LineTooLong` failure whose returned state has column = 65535 with the input
retained as-is, and `val` applied to that returned state returns Ok. -/
theorem c1_counterexample_val_ok :
    Parse.char 'a' ⟨['a', 'b'], 0, 65535, 1, false, .Keyword⟩
      = .fail ⟨.Keyword, .LineTooLong 0⟩ ⟨['a', 'b'], 0, 65535, 1, false, .Keyword⟩
    ∧ Parse.val (0 : Nat) ⟨['a', 'b'], 0, 65535, 1, false, .Keyword⟩
      = .ok 0 ⟨['a', 'b'], 0, 65535, 1, false, .Keyword⟩ :=
  ⟨by decide, rfl⟩

/-- C1 (amended): after a `LineTooLong` failure the returned state has
column = 65535 and the input retained; on such a state every application of
the input-consuming primitives — `char c`, and `string str` for nonempty
`str` — fails, again with `LineTooLong` and with the poisoned state returned
unchanged.  (Combinators that can succeed without consuming, such as `val`,
may still return Ok on the poisoned state.) -/
theorem c1_poisoned_primitives_fail (c : Char) (str : List Char)
    (s : Parse.State) (hstr : str ≠ []) (h : s.column = Parse.u16MAX) :
    Parse.char c s = .fail ⟨s.attempting, .LineTooLong s.line⟩ s
    ∧ Parse.string str s = .fail ⟨s.attempting, .LineTooLong s.line⟩ s := by
  have hmax : s.column = 65535 := h
  constructor
  · cases hin : s.input with
    | nil =>
      simp only [Parse.char, hin, Parse.unexpected_eof, Parse.checked_unexpected]
      rw [if_neg (by simp [Parse.u16MAX]; omega)]
      rw [line_too_long_at_max s h]
    | cons a rest =>
      simp only [Parse.char, hin]
      by_cases hc : c = a
      · rw [if_pos hc]
        simp only [Parse.State.advance_without_indenting]
        rw [if_neg (by simp [Parse.u16MAX]; omega)]
        rw [line_too_long_at_max s h]
      · rw [if_neg hc]
        simp only [Parse.unexpected, Parse.checked_unexpected]
        rw [if_neg (by simp [Parse.u16MAX]; omega)]
        rw [line_too_long_at_max s h]
  · have hlen : 0 < str.length := List.length_pos.mpr hstr
    simp only [Parse.string]
    by_cases hcond : str.length ≤ s.input.length ∧ s.input.take str.length = str
    · rw [if_pos hcond]
      simp only [Parse.State.advance_without_indenting]
      rw [if_neg (by simp [Parse.u16MAX]; omega)]
      rw [line_too_long_at_max s h]
    · rw [if_neg hcond]
      simp only [Parse.unexpected_eof, Parse.checked_unexpected]
      rw [if_neg (by simp [Parse.u16MAX]; omega)]
      rw [line_too_long_at_max s h]

/-- C1 witness: the amended theorem evaluated on a concrete poisoned state. -/
theorem c1_witness :
    Parse.char 'x' ⟨[], 0, 65535, 1, false, .Expression⟩
      = .fail ⟨.Expression, .LineTooLong 0⟩ ⟨[], 0, 65535, 1, false, .Expression⟩
    ∧ Parse.string ['x'] ⟨[], 0, 65535, 1, false, .Expression⟩
      = .fail ⟨.Expression, .LineTooLong 0⟩ ⟨[], 0, 65535, 1, false, .Expression⟩ :=
  c1_poisoned_primitives_fail 'x' ['x'] ⟨[], 0, 65535, 1, false, .Expression⟩
    (by decide) rfl

/-- C2 counterexample: the claim says `zero_or_more` returns "the state at
which the failing call to p was entered".  With `p = string "ab"`, from a
state at column 65532 the first attempt succeeds and leaves column 65534; the
second (failing) attempt is entered at column 65534 but its `Err` carries the
poisoned column-65535 state, and that poisoned state — not the entry state —
is what `zero_or_more` returns. -/
theorem c2_counterexample_poisoned_state :
    Parse.string ['a', 'b'] ⟨['a', 'b', 'a', 'b'], 0, 65532, 1, false, .Keyword⟩
      = .ok () ⟨['a', 'b'], 0, 65534, 1, false, .Keyword⟩
    ∧ Parse.string ['a', 'b'] ⟨['a', 'b'], 0, 65534, 1, false, .Keyword⟩
      = .fail ⟨.Keyword, .LineTooLong 0⟩ ⟨['a', 'b'], 0, 65535, 1, false, .Keyword⟩
    ∧ Parse.zero_or_more (Parse.string ['a', 'b']) 3
        ⟨['a', 'b', 'a', 'b'], 0, 65532, 1, false, .Keyword⟩
      = some (.ok [()] ⟨['a', 'b'], 0, 65535, 1, false, .Keyword⟩)
    ∧ (⟨['a', 'b'], 0, 65535, 1, false, .Keyword⟩ : Parse.State)
      ≠ ⟨['a', 'b'], 0, 65534, 1, false, .Keyword⟩ := by
  refine ⟨by decide, by decide, by decide, by decide⟩

/-- C2 (amended): `zero_or_more(p)` never returns Err; on the first Err from
`p` it returns the accumulated vector together with the state carried inside
`p`'s Err result (which coincides with the state the failing attempt was
entered at whenever `p` fails without modifying the state, but is the
poisoned state after a line-length overflow). -/
theorem c2_zero_or_more_spec (α : Type) (p : Parse.Parser α) (fuel : Nat)
    (s : Parse.State) :
    (∀ f st, Parse.zero_or_more p fuel s ≠ some (.fail f st))
    ∧ (∀ f st, p s = .fail f st →
        Parse.zero_or_more p fuel s = some (.ok [] st))
    ∧ (∀ (buf : List α) s0 f st, p s0 = .fail f st →
        Parse.zero_or_more_loop p (fuel + 1) buf s0 = some (.ok buf st)) := by
  refine ⟨?_, ?_, ?_⟩
  · intro f st
    simp only [Parse.zero_or_more]
    cases hp : p s with
    | ok a s1 => exact zero_or_more_loop_no_fail p fuel [a] s1 f st
    | fail f1 s1 => simp
    | panic => simp
  · intro f st h
    simp [Parse.zero_or_more, h]
  · intro buf s0 f st h
    simp [Parse.zero_or_more_loop, h]

/-- C2 witness: the amended theorem evaluated at a concrete failing parser. -/
theorem c2_witness :
    Parse.zero_or_more (Parse.char 'x') 2 ⟨['y'], 0, 0, 1, true, .Keyword⟩
      = some (.ok [] ⟨['y'], 0, 0, 1, true, .Keyword⟩) :=
  (c2_zero_or_more_spec Unit (Parse.char 'x') 2
      ⟨['y'], 0, 0, 1, true, .Keyword⟩).2.1
    ⟨.Keyword, .Unexpected 'y' ⟨0, 0, 0, 0⟩⟩
    ⟨['y'], 0, 0, 1, true, .Keyword⟩ (by decide)

/-- C4: `newline()` fails with `TooManyLines`, leaving the state unchanged,
exactly when incrementing the 32-bit line counter would overflow; on success
the returned state has column 0, indent_col 1, is_indenting true, the line
incremented, and the input advanced by one character. -/
theorem c4_newline_spec (s : Parse.State) :
    (¬ s.line + 1 ≤ Parse.u32MAX →
      Parse.State.newline s = .fail ⟨s.attempting, .TooManyLines⟩ s)
    ∧ (∀ f s1, Parse.State.newline s = .fail f s1 →
        f = ⟨s.attempting, .TooManyLines⟩ ∧ s1 = s
        ∧ ¬ s.line + 1 ≤ Parse.u32MAX)
    ∧ (∀ s1, Parse.State.newline s = .ok s1 →
        s1.column = 0 ∧ s1.indent_col = 1 ∧ s1.is_indenting = true
        ∧ s1.line = s.line + 1 ∧ s1.input = s.input.tail
        ∧ s1.attempting = s.attempting) := by
  refine ⟨?_, ?_, ?_⟩
  · intro h
    simp only [Parse.State.newline]
    rw [if_neg h]
  · intro f s1 h
    by_cases hl : s.line + 1 ≤ Parse.u32MAX
    · simp only [Parse.State.newline] at h
      rw [if_pos hl] at h
      cases hin : s.input with
      | nil => rw [hin] at h; simp at h
      | cons a rest => rw [hin] at h; simp at h
    · simp only [Parse.State.newline] at h
      rw [if_neg hl] at h
      injection h with h1 h2
      exact ⟨h1.symm, h2.symm, hl⟩
  · intro s1 h
    simp only [Parse.State.newline] at h
    by_cases hl : s.line + 1 ≤ Parse.u32MAX
    · rw [if_pos hl] at h
      cases hin : s.input with
      | nil => rw [hin] at h; simp at h
      | cons a rest =>
        rw [hin] at h
        injection h with h1
        subst h1
        exact ⟨rfl, rfl, rfl, rfl, rfl, rfl⟩
    · rw [if_neg hl] at h
      simp at h

/-- C4 witness: `newline` on a concrete two-character input. -/
theorem c4_witness :
    Parse.State.newline ⟨['\n', 'x'], 0, 5, 3, false, .Keyword⟩
      = .ok ⟨['x'], 1, 0, 1, true, .Keyword⟩
    ∧ ((⟨['x'], 1, 0, 1, true, .Keyword⟩ : Parse.State).column = 0
      ∧ (⟨['x'], 1, 0, 1, true, .Keyword⟩ : Parse.State).indent_col = 1
      ∧ (⟨['x'], 1, 0, 1, true, .Keyword⟩ : Parse.State).is_indenting = true
      ∧ (⟨['x'], 1, 0, 1, true, .Keyword⟩ : Parse.State).line
          = (⟨['\n', 'x'], 0, 5, 3, false, .Keyword⟩ : Parse.State).line + 1
      ∧ (⟨['x'], 1, 0, 1, true, .Keyword⟩ : Parse.State).input
          = (⟨['\n', 'x'], 0, 5, 3, false, .Keyword⟩ : Parse.State).input.tail
      ∧ (⟨['x'], 1, 0, 1, true, .Keyword⟩ : Parse.State).attempting
          = (⟨['\n', 'x'], 0, 5, 3, false, .Keyword⟩ : Parse.State).attempting) :=
  ⟨by decide,
   (c4_newline_spec ⟨['\n', 'x'], 0, 5, 3, false, .Keyword⟩).2.2
     ⟨['x'], 1, 0, 1, true, .Keyword⟩ (by decide)⟩

/-- C8: whenever the inner parser fails — for any reason, including a
poisoned `LineTooLong` failure — `satisfies` discards the inner failure and
its returned state and fails with `ConditionFailed` at the original state,
exactly as it does when the predicate rejects a success. -/
theorem c8_satisfies_spec (α : Type) (p : Parse.Parser α)
    (predicate : α → Bool) (s : Parse.State) :
    (∀ f s1, p s = .fail f s1 →
      Parse.satisfies p predicate s
        = .fail ⟨s.attempting, .ConditionFailed⟩ s)
    ∧ (∀ a s1, p s = .ok a s1 → predicate a = false →
      Parse.satisfies p predicate s
        = .fail ⟨s.attempting, .ConditionFailed⟩ s) := by
  constructor
  · intro f s1 h
    simp [Parse.satisfies, h]
  · intro a s1 h hp
    simp [Parse.satisfies, h, hp]

/-- C8 witness: the inner parser fails with a poisoned `LineTooLong`, yet
`satisfies` reports `ConditionFailed` at the original state. -/
theorem c8_witness :
    Parse.satisfies (Parse.char 'a') (fun _ => true)
        ⟨['a'], 0, 65535, 1, false, .Keyword⟩
      = .fail ⟨.Keyword, .ConditionFailed⟩ ⟨['a'], 0, 65535, 1, false, .Keyword⟩ :=
  (c8_satisfies_spec Unit (Parse.char 'a') (fun _ => true)
      ⟨['a'], 0, 65535, 1, false, .Keyword⟩).1
    ⟨.Keyword, .LineTooLong 0⟩ ⟨['a'], 0, 65535, 1, false, .Keyword⟩ (by decide)

/-- C9: for a parser that succeeds on every state, the accumulation loops of
`zero_or_more` and `one_or_more` have no exit: for every amount of fuel the
loop runs out of fuel without producing a result. -/
theorem c9_repetition_diverges (α : Type) (p : Parse.Parser α)
    (hp : ∀ s, ∃ a s1, p s = .ok a s1) :
    (∀ fuel (buf : List α) s, Parse.zero_or_more_loop p fuel buf s = none)
    ∧ (∀ fuel (buf : List α) s, Parse.one_or_more_loop p fuel buf s = none)
    ∧ (∀ fuel s, Parse.zero_or_more p fuel s = none)
    ∧ (∀ fuel s, Parse.one_or_more p fuel s = none) := by
  have hz : ∀ fuel (buf : List α) s,
      Parse.zero_or_more_loop p fuel buf s = none := by
    intro fuel
    induction fuel with
    | zero => intro buf s; rfl
    | succ n ih =>
      intro buf s
      obtain ⟨a, s1, h⟩ := hp s
      simp [Parse.zero_or_more_loop, h, ih]
  have ho : ∀ fuel (buf : List α) s,
      Parse.one_or_more_loop p fuel buf s = none := by
    intro fuel
    induction fuel with
    | zero => intro buf s; rfl
    | succ n ih =>
      intro buf s
      obtain ⟨a, s1, h⟩ := hp s
      simp [Parse.one_or_more_loop, h, ih]
  refine ⟨hz, ho, ?_, ?_⟩
  · intro fuel s
    obtain ⟨a, s1, h⟩ := hp s
    simp [Parse.zero_or_more, h, hz]
  · intro fuel s
    obtain ⟨a, s1, h⟩ := hp s
    simp [Parse.one_or_more, h, ho]

/-- C9 witness: `val` succeeds everywhere, so both repetition combinators
exhaust any amount of fuel. -/
theorem c9_witness :
    Parse.zero_or_more (Parse.val (0 : Nat)) 5 ⟨[], 0, 0, 1, true, .Keyword⟩ = none
    ∧ Parse.one_or_more (Parse.val (0 : Nat)) 5 ⟨[], 0, 0, 1, true, .Keyword⟩ = none :=
  ⟨(c9_repetition_diverges Nat (Parse.val 0) (fun s => ⟨0, s, rfl⟩)).2.2.1 5
      ⟨[], 0, 0, 1, true, .Keyword⟩,
   (c9_repetition_diverges Nat (Parse.val 0) (fun s => ⟨0, s, rfl⟩)).2.2.2 5
      ⟨[], 0, 0, 1, true, .Keyword⟩⟩

/-- C10: the state-advancing primitives index the input without bounds
checks: when the numeric guards pass but the input is too short, they panic
instead of returning a Fail, and conversely a returned Ok presupposes that
the input held at least the consumed characters. -/
theorem c10_primitives_index_unchecked (s : Parse.State) (n : Nat) :
    (s.line + 1 ≤ Parse.u32MAX → s.input = [] →
      Parse.State.newline s = .panic)
    ∧ (s.column + n ≤ Parse.u16MAX → s.input.length < n →
      s.advance_without_indenting n = .panic)
    ∧ (s.column + n ≤ Parse.u16MAX → s.input.length < n →
      s.advance_spaces n = .panic)
    ∧ (∀ s1, Parse.State.newline s = .ok s1 → s.input ≠ [])
    ∧ (∀ s1, s.advance_without_indenting n = .ok s1 → n ≤ s.input.length)
    ∧ (∀ s1, s.advance_spaces n = .ok s1 → n ≤ s.input.length) := by
  refine ⟨?_, ?_, ?_, ?_, ?_, ?_⟩
  · intro hl hin
    simp [Parse.State.newline, hl, hin]
  · intro hc hlen
    simp only [Parse.State.advance_without_indenting]
    rw [if_pos hc, if_neg (by omega)]
  · intro hc hlen
    simp only [Parse.State.advance_spaces]
    rw [if_pos hc, if_neg (by omega)]
  · intro s1 h hin
    simp only [Parse.State.newline, hin] at h
    split at h <;> simp at h
  · intro s1 h
    by_contra hlen
    rw [Nat.not_le] at hlen
    simp only [Parse.State.advance_without_indenting] at h
    split at h
    · rw [if_neg (by omega)] at h
      simp at h
    · simp at h
  · intro s1 h
    by_contra hlen
    rw [Nat.not_le] at hlen
    simp only [Parse.State.advance_spaces] at h
    split at h
    · rw [if_neg (by omega)] at h
      simp at h
    · simp at h

/-- C10 witness: the three primitives panic on concrete too-short inputs. -/
theorem c10_witness :
    Parse.State.newline ⟨[], 0, 0, 1, true, .Keyword⟩ = .panic
    ∧ Parse.State.advance_without_indenting ⟨[], 0, 0, 1, true, .Keyword⟩ 1 = .panic
    ∧ Parse.State.advance_spaces ⟨[], 0, 0, 1, true, .Keyword⟩ 1 = .panic :=
  ⟨(c10_primitives_index_unchecked ⟨[], 0, 0, 1, true, .Keyword⟩ 1).1
      (by decide) rfl,
   (c10_primitives_index_unchecked ⟨[], 0, 0, 1, true, .Keyword⟩ 1).2.1
      (by decide) (by decide),
   (c10_primitives_index_unchecked ⟨[], 0, 0, 1, true, .Keyword⟩ 1).2.2.1
      (by decide) (by decide)⟩

/-- C3: `either(p, q)` first runs `p`; when `p` fails it re-enters `q` with
the state returned by `p`'s failure (not the original state); when `q` also
fails, the final Fail carries the `attempting` tag the state had when
`either` was entered.  `one_of2` .. `one_of8` chain the same way: each
alternative is entered with the state returned by the previous failure, and
the final failure restores the entry `attempting`; the conjuncts for each
arity exhibit the full failure chain and the success of the last
alternative reached through that chain. -/
theorem c3_alternation_reentry (α β : Type) :
    (∀ (p : Parse.Parser α) (q : Parse.Parser β) s a s1,
      p s = .ok a s1 → Parse.either p q s = .ok (.First a) s1)
    ∧ (∀ (p : Parse.Parser α) (q : Parse.Parser β) s f1 s1 b s2,
      p s = .fail f1 s1 → q s1 = .ok b s2 →
        Parse.either p q s = .ok (.Second b) s2)
    ∧ (∀ (p : Parse.Parser α) (q : Parse.Parser β) s f1 s1 f2 s2,
      p s = .fail f1 s1 → q s1 = .fail f2 s2 →
        Parse.either p q s = .fail ⟨s.attempting, f2.reason⟩ s2)
    ∧ (∀ (q1 q2 : Parse.Parser α) t0 f1 t1 a t2,
      q1 t0 = .fail f1 t1 → q2 t1 = .ok a t2 →
        Parse.one_of2 q1 q2 t0 = .ok a t2)
    ∧ (∀ (q1 q2 : Parse.Parser α) t0 f1 t1 f2 t2,
      q1 t0 = .fail f1 t1 → q2 t1 = .fail f2 t2 →
        Parse.one_of2 q1 q2 t0 = .fail ⟨t0.attempting, f2.reason⟩ t2)
    ∧ (∀ (q1 q2 q3 : Parse.Parser α) t0 f1 t1 f2 t2 a t3,
      q1 t0 = .fail f1 t1 → q2 t1 = .fail f2 t2 → q3 t2 = .ok a t3 →
        Parse.one_of3 q1 q2 q3 t0 = .ok a t3)
    ∧ (∀ (q1 q2 q3 : Parse.Parser α) t0 f1 t1 f2 t2 f3 t3,
      q1 t0 = .fail f1 t1 → q2 t1 = .fail f2 t2 → q3 t2 = .fail f3 t3 →
        Parse.one_of3 q1 q2 q3 t0 = .fail ⟨t0.attempting, f3.reason⟩ t3)
    ∧ (∀ (q1 q2 q3 q4 : Parse.Parser α) t0 f1 t1 f2 t2 f3 t3 a t4,
      q1 t0 = .fail f1 t1 → q2 t1 = .fail f2 t2 → q3 t2 = .fail f3 t3 →
      q4 t3 = .ok a t4 →
        Parse.one_of4 q1 q2 q3 q4 t0 = .ok a t4)
    ∧ (∀ (q1 q2 q3 q4 : Parse.Parser α) t0 f1 t1 f2 t2 f3 t3 f4 t4,
      q1 t0 = .fail f1 t1 → q2 t1 = .fail f2 t2 → q3 t2 = .fail f3 t3 →
      q4 t3 = .fail f4 t4 →
        Parse.one_of4 q1 q2 q3 q4 t0 = .fail ⟨t0.attempting, f4.reason⟩ t4)
    ∧ (∀ (q1 q2 q3 q4 q5 : Parse.Parser α) t0 f1 t1 f2 t2 f3 t3 f4 t4 a t5,
      q1 t0 = .fail f1 t1 → q2 t1 = .fail f2 t2 → q3 t2 = .fail f3 t3 →
      q4 t3 = .fail f4 t4 → q5 t4 = .ok a t5 →
        Parse.one_of5 q1 q2 q3 q4 q5 t0 = .ok a t5)
    ∧ (∀ (q1 q2 q3 q4 q5 : Parse.Parser α) t0 f1 t1 f2 t2 f3 t3 f4 t4 f5 t5,
      q1 t0 = .fail f1 t1 → q2 t1 = .fail f2 t2 → q3 t2 = .fail f3 t3 →
      q4 t3 = .fail f4 t4 → q5 t4 = .fail f5 t5 →
        Parse.one_of5 q1 q2 q3 q4 q5 t0 = .fail ⟨t0.attempting, f5.reason⟩ t5)
    ∧ (∀ (q1 q2 q3 q4 q5 q6 : Parse.Parser α)
        t0 f1 t1 f2 t2 f3 t3 f4 t4 f5 t5 a t6,
      q1 t0 = .fail f1 t1 → q2 t1 = .fail f2 t2 → q3 t2 = .fail f3 t3 →
      q4 t3 = .fail f4 t4 → q5 t4 = .fail f5 t5 → q6 t5 = .ok a t6 →
        Parse.one_of6 q1 q2 q3 q4 q5 q6 t0 = .ok a t6)
    ∧ (∀ (q1 q2 q3 q4 q5 q6 : Parse.Parser α)
        t0 f1 t1 f2 t2 f3 t3 f4 t4 f5 t5 f6 t6,
      q1 t0 = .fail f1 t1 → q2 t1 = .fail f2 t2 → q3 t2 = .fail f3 t3 →
      q4 t3 = .fail f4 t4 → q5 t4 = .fail f5 t5 → q6 t5 = .fail f6 t6 →
        Parse.one_of6 q1 q2 q3 q4 q5 q6 t0
          = .fail ⟨t0.attempting, f6.reason⟩ t6)
    ∧ (∀ (q1 q2 q3 q4 q5 q6 q7 : Parse.Parser α)
        t0 f1 t1 f2 t2 f3 t3 f4 t4 f5 t5 f6 t6 a t7,
      q1 t0 = .fail f1 t1 → q2 t1 = .fail f2 t2 → q3 t2 = .fail f3 t3 →
      q4 t3 = .fail f4 t4 → q5 t4 = .fail f5 t5 → q6 t5 = .fail f6 t6 →
      q7 t6 = .ok a t7 →
        Parse.one_of7 q1 q2 q3 q4 q5 q6 q7 t0 = .ok a t7)
    ∧ (∀ (q1 q2 q3 q4 q5 q6 q7 : Parse.Parser α)
        t0 f1 t1 f2 t2 f3 t3 f4 t4 f5 t5 f6 t6 f7 t7,
      q1 t0 = .fail f1 t1 → q2 t1 = .fail f2 t2 → q3 t2 = .fail f3 t3 →
      q4 t3 = .fail f4 t4 → q5 t4 = .fail f5 t5 → q6 t5 = .fail f6 t6 →
      q7 t6 = .fail f7 t7 →
        Parse.one_of7 q1 q2 q3 q4 q5 q6 q7 t0
          = .fail ⟨t0.attempting, f7.reason⟩ t7)
    ∧ (∀ (q1 q2 q3 q4 q5 q6 q7 q8 : Parse.Parser α)
        t0 f1 t1 f2 t2 f3 t3 f4 t4 f5 t5 f6 t6 f7 t7 a t8,
      q1 t0 = .fail f1 t1 → q2 t1 = .fail f2 t2 → q3 t2 = .fail f3 t3 →
      q4 t3 = .fail f4 t4 → q5 t4 = .fail f5 t5 → q6 t5 = .fail f6 t6 →
      q7 t6 = .fail f7 t7 → q8 t7 = .ok a t8 →
        Parse.one_of8 q1 q2 q3 q4 q5 q6 q7 q8 t0 = .ok a t8)
    ∧ (∀ (q1 q2 q3 q4 q5 q6 q7 q8 : Parse.Parser α)
        t0 f1 t1 f2 t2 f3 t3 f4 t4 f5 t5 f6 t6 f7 t7 f8 t8,
      q1 t0 = .fail f1 t1 → q2 t1 = .fail f2 t2 → q3 t2 = .fail f3 t3 →
      q4 t3 = .fail f4 t4 → q5 t4 = .fail f5 t5 → q6 t5 = .fail f6 t6 →
      q7 t6 = .fail f7 t7 → q8 t7 = .fail f8 t8 →
        Parse.one_of8 q1 q2 q3 q4 q5 q6 q7 q8 t0
          = .fail ⟨t0.attempting, f8.reason⟩ t8) := by
  refine ⟨?_, ?_, ?_, ?_, ?_, ?_, ?_, ?_, ?_, ?_, ?_, ?_, ?_, ?_, ?_, ?_, ?_⟩
  · intro p q s a s1 h1
    simp [Parse.either, h1]
  · intro p q s f1 s1 b s2 h1 h2
    simp [Parse.either, h1, h2]
  · intro p q s f1 s1 f2 s2 h1 h2
    simp [Parse.either, h1, h2]
  · intro q1 q2 t0 f1 t1 a t2 h1 h2
    simp [Parse.one_of2, h1, h2]
  · intro q1 q2 t0 f1 t1 f2 t2 h1 h2
    simp [Parse.one_of2, h1, h2]
  · intro q1 q2 q3 t0 f1 t1 f2 t2 a t3 h1 h2 h3
    simp [Parse.one_of3, h1, h2, h3]
  · intro q1 q2 q3 t0 f1 t1 f2 t2 f3 t3 h1 h2 h3
    simp [Parse.one_of3, h1, h2, h3]
  · intro q1 q2 q3 q4 t0 f1 t1 f2 t2 f3 t3 a t4 h1 h2 h3 h4
    simp [Parse.one_of4, h1, h2, h3, h4]
  · intro q1 q2 q3 q4 t0 f1 t1 f2 t2 f3 t3 f4 t4 h1 h2 h3 h4
    simp [Parse.one_of4, h1, h2, h3, h4]
  · intro q1 q2 q3 q4 q5 t0 f1 t1 f2 t2 f3 t3 f4 t4 a t5 h1 h2 h3 h4 h5
    simp [Parse.one_of5, h1, h2, h3, h4, h5]
  · intro q1 q2 q3 q4 q5 t0 f1 t1 f2 t2 f3 t3 f4 t4 f5 t5 h1 h2 h3 h4 h5
    simp [Parse.one_of5, h1, h2, h3, h4, h5]
  · intro q1 q2 q3 q4 q5 q6 t0 f1 t1 f2 t2 f3 t3 f4 t4 f5 t5 a t6
      h1 h2 h3 h4 h5 h6
    simp [Parse.one_of6, h1, h2, h3, h4, h5, h6]
  · intro q1 q2 q3 q4 q5 q6 t0 f1 t1 f2 t2 f3 t3 f4 t4 f5 t5 f6 t6
      h1 h2 h3 h4 h5 h6
    simp [Parse.one_of6, h1, h2, h3, h4, h5, h6]
  · intro q1 q2 q3 q4 q5 q6 q7 t0 f1 t1 f2 t2 f3 t3 f4 t4 f5 t5 f6 t6 a t7
      h1 h2 h3 h4 h5 h6 h7
    simp [Parse.one_of7, h1, h2, h3, h4, h5, h6, h7]
  · intro q1 q2 q3 q4 q5 q6 q7 t0 f1 t1 f2 t2 f3 t3 f4 t4 f5 t5 f6 t6 f7 t7
      h1 h2 h3 h4 h5 h6 h7
    simp [Parse.one_of7, h1, h2, h3, h4, h5, h6, h7]
  · intro q1 q2 q3 q4 q5 q6 q7 q8 t0 f1 t1 f2 t2 f3 t3 f4 t4 f5 t5 f6 t6
      f7 t7 a t8 h1 h2 h3 h4 h5 h6 h7 h8
    simp [Parse.one_of8, h1, h2, h3, h4, h5, h6, h7, h8]
  · intro q1 q2 q3 q4 q5 q6 q7 q8 t0 f1 t1 f2 t2 f3 t3 f4 t4 f5 t5 f6 t6
      f7 t7 f8 t8 h1 h2 h3 h4 h5 h6 h7 h8
    simp [Parse.one_of8, h1, h2, h3, h4, h5, h6, h7, h8]

/-- C3 witness: `either` on two concrete failing parsers re-enters the second
alternative and restores the entry `attempting` tag on the final failure. -/
theorem c3_witness :
    Parse.either (Parse.char 'a') (Parse.char 'b')
        ⟨['c'], 0, 0, 1, true, .Expression⟩
      = .fail ⟨.Expression, .Unexpected 'c' ⟨0, 0, 0, 0⟩⟩
          ⟨['c'], 0, 0, 1, true, .Expression⟩ :=
  (c3_alternation_reentry Unit Unit).2.2.1 (Parse.char 'a') (Parse.char 'b')
    ⟨['c'], 0, 0, 1, true, .Expression⟩
    ⟨.Keyword, .Unexpected 'c' ⟨0, 0, 0, 0⟩⟩ ⟨['c'], 0, 0, 1, true, .Expression⟩
    ⟨.Keyword, .Unexpected 'c' ⟨0, 0, 0, 0⟩⟩ ⟨['c'], 0, 0, 1, true, .Expression⟩
    (by decide) (by decide)

/-- A single solver binding never overwrites a rigid entry. -/
theorem solve_bind_preserves_rigid (subs : Types.Subs) (w : Types.Variable)
    (c : Types.Content) (v : Types.Variable) (n : String)
    (h : subs v = .RigidVar n) : Solve.solve_bind subs w c v = .RigidVar n := by
  by_cases hv : v = w
  · subst hv
    simp only [Solve.solve_bind, h]
  · cases hE : subs w <;> simp [Solve.solve_bind, hE, hv, h]

/-- The whole solver run never overwrites a rigid entry. -/
theorem solve_run_preserves_rigid (binds : List (Types.Variable × Types.Content))
    (subs : Types.Subs) (v : Types.Variable) (n : String)
    (h : subs v = .RigidVar n) : Solve.solve_run binds subs v = .RigidVar n := by
  induction binds generalizing subs with
  | nil => exact h
  | cons b rest ih =>
    exact ih (Solve.solve_bind subs b.1 b.2)
      (solve_bind_preserves_rigid subs b.1 b.2 v n h)

/-- Registering rigids leaves a variable not in the list untouched. -/
theorem rigid_fold_not_mem (l : List (Types.Variable × String))
    (subs : Types.Subs) (v : Types.Variable)
    (h : v ∉ l.map Prod.fst) :
    (l.foldl (fun s p => s.rigid_var p.1 p.2) subs) v = subs v := by
  induction l generalizing subs with
  | nil => rfl
  | cons b rest ih =>
    simp only [List.map_cons, List.mem_cons] at h
    push_neg at h
    rw [List.foldl_cons, ih (subs.rigid_var b.1 b.2) h.2]
    simp [Types.Subs.rigid_var, h.1]

/-- Registering the named rigids writes `RigidVar name` for each entry, as
long as no variable is registered twice. -/
theorem rigid_fold_mem (l : List (Types.Variable × String)) (subs : Types.Subs)
    (v : Types.Variable) (n : String)
    (hnd : (l.map Prod.fst).Nodup) (hmem : (v, n) ∈ l) :
    (l.foldl (fun s p => s.rigid_var p.1 p.2) subs) v = .RigidVar n := by
  induction l generalizing subs with
  | nil => cases hmem
  | cons b rest ih =>
    simp only [List.map_cons, List.nodup_cons] at hnd
    rw [List.foldl_cons]
    rcases List.mem_cons.mp hmem with hb | hrest
    · subst hb
      rw [rigid_fold_not_mem rest (subs.rigid_var v n) v hnd.1]
      simp [Types.Subs.rigid_var]
    · exact ih (subs.rigid_var b.1 b.2) hnd.2 hrest

/-- Registering the wildcards writes `RigidVar "*"` for each member and
leaves everything else untouched. -/
theorem wildcard_fold_eval (l : List Types.Variable) (subs : Types.Subs)
    (v : Types.Variable) :
    (l.foldl (fun s w => s.rigid_var w "*") subs) v
      = if v ∈ l then .RigidVar "*" else subs v := by
  induction l generalizing subs with
  | nil => simp [Solve.solve_run]
  | cons b rest ih =>
    rw [List.foldl_cons, ih (subs.rigid_var b "*")]
    by_cases hr : v ∈ rest
    · simp [hr]
    · by_cases hb : v = b
      · subst hb
        simp [hr, Types.Subs.rigid_var]
      · simp [hr, hb, Types.Subs.rigid_var]

/-- C5: after `run_solve`, every named rigid pair `(v, n)` is mapped to
`RigidVar n` (given that the named list registers each variable once and `v`
is not also a wildcard — `RigidVariables` holds sets), and every wildcard
rigid is mapped to `RigidVar "*"`. -/
theorem c5_run_solve_rigids (binds : List (Types.Variable × Types.Content))
    (rv : Solve.RigidVariables) (subs : Types.Subs) :
    (∀ v n, (rv.named.map Prod.fst).Nodup → (v, n) ∈ rv.named →
      v ∉ rv.wildcards →
      Solve.run_solve binds rv subs v = .RigidVar n)
    ∧ (∀ v, v ∈ rv.wildcards →
      Solve.run_solve binds rv subs v = .RigidVar "*") := by
  constructor
  · intro v n hnd hmem hw
    unfold Solve.run_solve
    apply solve_run_preserves_rigid
    rw [wildcard_fold_eval]
    rw [if_neg hw]
    exact rigid_fold_mem rv.named subs v n hnd hmem
  · intro v hv
    unfold Solve.run_solve
    apply solve_run_preserves_rigid
    rw [wildcard_fold_eval]
    rw [if_pos hv]

/-- C5 witness: scenario S5 — named rigid `(1, "a")`, wildcard `2`, and a
solver run that also binds other variables. -/
theorem c5_witness :
    Solve.run_solve [(3, .Error), (1, .FlexVar none)]
        ⟨[(1, "a")], [2]⟩ (fun _ => .FlexVar none) 1 = .RigidVar "a"
    ∧ Solve.run_solve [(3, .Error), (1, .FlexVar none)]
        ⟨[(1, "a")], [2]⟩ (fun _ => .FlexVar none) 2 = .RigidVar "*" :=
  ⟨(c5_run_solve_rigids [(3, .Error), (1, .FlexVar none)]
      ⟨[(1, "a")], [2]⟩ (fun _ => .FlexVar none)).1 1 "a"
      (by simp) (by simp) (by simp),
   (c5_run_solve_rigids [(3, .Error), (1, .FlexVar none)]
      ⟨[(1, "a")], [2]⟩ (fun _ => .FlexVar none)).2 2 (by simp)⟩

/-- C6 counterexample: the claim reserves a basic type for `Num.Num` applied
to exactly one argument and says any other content produces no basic type;
but the code reads only the first argument (`args.iter().next()`), so a
`Num.Num` application with two arguments — not of the claimed `[inner]`
shape — still produces f64. -/
theorem c6_counterexample_extra_args :
    Gen.content_to_basic_type (.Structure (.Apply "Num" "Num" [0, 1]))
        (fun v => if v = 0
          then .Structure (.Apply "Float" "FloatingPoint" [])
          else .Error)
      = some (.ok .FloatType)
    ∧ [(0 : Types.Variable), 1] ≠ [0] :=
  ⟨rfl, by decide⟩

/-- C6 (amended): `Structure(Apply{Num, Num, args})` with nonempty `args`
dispatches on the first argument, ignoring any extra arguments: a first
argument resolving to `Apply{Float, FloatingPoint, []}` gives f64 and one
resolving to `Apply{Int, Integer, []}` gives i64; conversely whenever a
basic type is produced the content was such a `Num.Num` application with a
suitably resolving first argument — everything else produces a
not-yet-supported panic or error value, never a basic type. -/
theorem c6_num_to_basic_mapping (subs : Types.Subs) :
    (∀ (v : Types.Variable) (rest : List Types.Variable),
      subs.get_without_compacting v
          = .Structure (.Apply "Float" "FloatingPoint" []) →
      Gen.content_to_basic_type (.Structure (.Apply "Num" "Num" (v :: rest))) subs
        = some (.ok .FloatType))
    ∧ (∀ (v : Types.Variable) (rest : List Types.Variable),
      subs.get_without_compacting v
          = .Structure (.Apply "Int" "Integer" []) →
      Gen.content_to_basic_type (.Structure (.Apply "Num" "Num" (v :: rest))) subs
        = some (.ok .IntType))
    ∧ (∀ (content : Types.Content) (bt : Gen.BasicTypeEnum),
      Gen.content_to_basic_type content subs = some (.ok bt) →
      ∃ v rest, content = .Structure (.Apply "Num" "Num" (v :: rest))
        ∧ ((subs.get_without_compacting v
              = .Structure (.Apply "Float" "FloatingPoint" [])
            ∧ bt = .FloatType)
          ∨ (subs.get_without_compacting v
              = .Structure (.Apply "Int" "Integer" [])
            ∧ bt = .IntType))) := by
  refine ⟨?_, ?_, ?_⟩
  · intro v rest h
    simp [Gen.content_to_basic_type, Gen.MOD_NUM, Gen.TYPE_NUM, h,
      Gen.num_to_basic_type, Gen.MOD_FLOAT, Gen.TYPE_FLOATINGPOINT]
  · intro v rest h
    simp [Gen.content_to_basic_type, Gen.MOD_NUM, Gen.TYPE_NUM, h,
      Gen.num_to_basic_type, Gen.MOD_FLOAT, Gen.TYPE_FLOATINGPOINT,
      Gen.MOD_INT, Gen.TYPE_INTEGER]
  · intro content bt h
    cases content with
    | FlexVar o => simp [Gen.content_to_basic_type] at h
    | RigidVar nm => simp [Gen.content_to_basic_type] at h
    | Alias a b c => simp [Gen.content_to_basic_type] at h
    | Error => simp [Gen.content_to_basic_type] at h
    | Structure ft =>
      cases ft with
      | Func a r => simp [Gen.content_to_basic_type] at h
      | EmptyRecord => simp [Gen.content_to_basic_type] at h
      | Apply m n args =>
        simp only [Gen.content_to_basic_type] at h
        by_cases hmn : m = Gen.MOD_NUM ∧ n = Gen.TYPE_NUM
        · rw [if_pos hmn] at h
          obtain ⟨hm, hn⟩ := hmn
          subst hm
          subst hn
          cases args with
          | nil => simp at h
          | cons v rest =>
            refine ⟨v, rest, rfl, ?_⟩
            have h2 : Gen.num_to_basic_type (subs.get_without_compacting v)
                = some (.ok bt) := h
            cases hsv : subs.get_without_compacting v with
            | Structure ft2 =>
              cases ft2 with
              | Apply m2 n2 args2 =>
                rw [hsv] at h2
                simp only [Gen.num_to_basic_type] at h2
                by_cases c1 : m2 = Gen.MOD_FLOAT ∧ n2 = Gen.TYPE_FLOATINGPOINT
                    ∧ args2 = []
                · rw [if_pos c1] at h2
                  obtain ⟨e1, e2, e3⟩ := c1
                  subst e1
                  subst e2
                  subst e3
                  simp only [Option.some.injEq, Except.ok.injEq] at h2
                  exact Or.inl ⟨rfl, h2.symm⟩
                · rw [if_neg c1] at h2
                  by_cases c2 : m2 = Gen.MOD_INT ∧ n2 = Gen.TYPE_INTEGER
                      ∧ args2 = []
                  · rw [if_pos c2] at h2
                    obtain ⟨e1, e2, e3⟩ := c2
                    subst e1
                    subst e2
                    subst e3
                    simp only [Option.some.injEq, Except.ok.injEq] at h2
                    exact Or.inr ⟨rfl, h2.symm⟩
                  · rw [if_neg c2] at h2
                    simp at h2
              | Func a r => rw [hsv] at h2; simp [Gen.num_to_basic_type] at h2
              | EmptyRecord => rw [hsv] at h2; simp [Gen.num_to_basic_type] at h2
            | FlexVar o => rw [hsv] at h2; simp [Gen.num_to_basic_type] at h2
            | RigidVar nm => rw [hsv] at h2; simp [Gen.num_to_basic_type] at h2
            | Alias a b c => rw [hsv] at h2; simp [Gen.num_to_basic_type] at h2
            | Error => rw [hsv] at h2; simp [Gen.num_to_basic_type] at h2
        · rw [if_neg hmn] at h
          simp at h

/-- C6 witness: the amended mapping evaluated at a concrete `Num.Num`
application of an integer type. -/
theorem c6_witness :
    Gen.content_to_basic_type (.Structure (.Apply "Num" "Num" [5]))
        (fun _ => .Structure (.Apply "Int" "Integer" []))
      = some (.ok .IntType) :=
  (c6_num_to_basic_mapping (fun _ => .Structure (.Apply "Int" "Integer" []))).2.1
    5 [] rfl

/-- C7: for a non-recursive let with an identifier pattern, the emitter
computes the bound expression's content, compiles the bound value, allocates
the binding's stack slot in the function's entry block — prepended before the
first existing instruction when there is one, else placed at the end of the
empty entry block (in both cases the alloca heads the entry block) — stores
the compiled value through the main builder at its current insert point, and
compiles the body under the scope extended with
(symbol → (content, alloca)); the extension is a fresh cons cell, so the
caller's scope value is shared, not mutated. -/
theorem c7_let_nonrec_emission (subs : Types.Subs) (scope : Gen.Scope)
    (symbol : Types.Symbol) (defE body : Gen.Expr)
    (b b1 b2 : Gen.BuilderState) (content : Types.Content)
    (v : Gen.BasicValueEnum) (bt : Gen.BasicTypeEnum) (ptr : Nat)
    (h1 : Gen.content_from_expr scope subs defE = some content)
    (h2 : Gen.compile_expr subs scope defE b = some (v, b1))
    (h3 : Gen.content_to_basic_type content subs = some (.ok bt))
    (h4 : Gen.create_entry_block_alloca b1 bt symbol = some (ptr, b2)) :
    Gen.compile_expr subs scope (.LetNonRec (.Identifier symbol) defE body) b
      = Gen.compile_expr subs ((symbol, (content, ptr)) :: scope) body
          (Gen.build_store b2 ptr v)
    ∧ ptr = b1.next_ptr
    ∧ (∀ entry rest, b1.blocks = entry :: rest →
        b2.blocks = (Gen.Instr.Alloca ptr bt symbol :: entry) :: rest
        ∧ b2.cur = b1.cur ∧ b2.next_ptr = b1.next_ptr + 1) := by
  refine ⟨?_, ?_, ?_⟩
  · simp only [Gen.compile_expr, h1, h2, h3, h4]
  · simp only [Gen.create_entry_block_alloca] at h4
    cases hb : b1.blocks with
    | nil =>
      rw [hb] at h4
      simp at h4
    | cons entry rest =>
      rw [hb] at h4
      injection h4 with h5
      injection h5 with h6 h7
      exact h6.symm
  · intro entry rest hb
    simp only [Gen.create_entry_block_alloca] at h4
    rw [hb] at h4
    cases entry with
    | nil =>
      simp only [List.nil_append] at h4
      injection h4 with h5
      injection h5 with h6 h7
      subst h6
      subst h7
      exact ⟨rfl, rfl, rfl⟩
    | cons i1 irest =>
      injection h4 with h5
      injection h5 with h6 h7
      subst h6
      subst h7
      exact ⟨rfl, rfl, rfl⟩

/-- C7 witness: scenario S3 — `let n = 7 in n` over an integer type, starting
from a function with a single empty entry block. -/
theorem c7_witness :
    Gen.compile_expr
        (fun w => if w = 0 then .Structure (.Apply "Num" "Num" [1])
          else if w = 1 then .Structure (.Apply "Int" "Integer" [])
          else .Error)
        [] (.LetNonRec (.Identifier "n") (.Int 0 7) (.Var "n")) ⟨[[]], 0, 0⟩
      = Gen.compile_expr
          (fun w => if w = 0 then .Structure (.Apply "Num" "Num" [1])
            else if w = 1 then .Structure (.Apply "Int" "Integer" [])
            else .Error)
          [("n", (.Structure (.Apply "Num" "Num" [1]), 0))] (.Var "n")
          (Gen.build_store ⟨[[.Alloca 0 .IntType "n"]], 0, 1⟩ 0 (.IntValue 7)) :=
  (c7_let_nonrec_emission
      (fun w => if w = 0 then .Structure (.Apply "Num" "Num" [1])
        else if w = 1 then .Structure (.Apply "Int" "Integer" [])
        else .Error)
      [] "n" (.Int 0 7) (.Var "n") ⟨[[]], 0, 0⟩ ⟨[[]], 0, 0⟩
      ⟨[[.Alloca 0 .IntType "n"]], 0, 1⟩
      (.Structure (.Apply "Num" "Num" [1])) (.IntValue 7) .IntType 0
      rfl rfl rfl rfl).1
